import Mathlib

/-!
Shallow embedding of the Autonomous Test Generation Platform scaffolding:
the MongoDB init script (`docker/init-scripts/mongo/01-init.js`), the
Docker Compose service definitions (`docker/docker-compose.yml`), the
pytest/coverage configuration, the CI workflow (`.github/workflows/ci.yml`),
the frontend package manifest, and the placeholder React component.
-/

namespace TestGen

/-! ## MongoDB: `test_patterns` collection with a unique index

`01-init.js` runs
  `db.test_patterns.createIndex({ pattern_name: 1 }, { unique: true })`,
a single-field unique index with no `sparse` or `partialFilterExpression`
option.  MongoDB indexes a document that omits the field under the key
`null`, so the index key of a document is its `pattern_name` value when
present and `null` (here `Option.none`) otherwise.  An insert fails with a
duplicate-key error exactly when some stored document has the same index
key. -/

/-- A document destined for `test_patterns`: an optional `pattern_name`
field plus an opaque payload standing for the rest of the document. -/
structure PatternDoc where
  pattern_name : Option String
  payload : String
deriving DecidableEq, Repr

/-- The index key the unique index on `pattern_name` extracts from a
document: the field's value, or `none` (BSON `null`) when the field is
absent.  The index created by `01-init.js` has no sparse/partial option,
so absent fields are indexed too. -/
def indexKey (d : PatternDoc) : Option String :=
  d.pattern_name

/-- Result of a MongoDB insert against the unique index. -/
inductive InsertResult where
  | inserted (coll : List PatternDoc)
  | duplicateKeyError
deriving DecidableEq, Repr

/-- Insert under the unique index on `pattern_name`: the insert is rejected
with a duplicate-key error iff a stored document shares the new document's
index key; otherwise the document is appended. -/
def insertPattern (coll : List PatternDoc) (d : PatternDoc) : InsertResult :=
  if coll.any (fun e => indexKey e = indexKey d) then
    InsertResult.duplicateKeyError
  else
    InsertResult.inserted (coll ++ [d])

/-- Whether an insert attempt succeeded. -/
def insertSucceeds (coll : List PatternDoc) (d : PatternDoc) : Bool :=
  insertPattern coll d matches InsertResult.inserted _

/-- The collection after an insert attempt (unchanged on failure). -/
def collAfter (coll : List PatternDoc) (d : PatternDoc) : List PatternDoc :=
  match insertPattern coll d with
  | InsertResult.inserted c => c
  | InsertResult.duplicateKeyError => coll

/-- Number of stored documents whose `pattern_name` equals `v`. -/
def countWithName (coll : List PatternDoc) (v : Option String) : Nat :=
  (coll.filter (fun e => indexKey e = v)).length

/-- Fold a sequence of insert attempts, dropping the rejected ones. -/
def applyInserts (coll : List PatternDoc) : List PatternDoc → List PatternDoc
  | [] => coll
  | d :: ds => applyInserts (collAfter coll d) ds

/-! ## CI workflow (`.github/workflows/ci.yml`)

The workflow triggers on `push` to `main` and on `pull_request` targeting
`main`.  The `deploy` job has `needs: [backend-tests, frontend-tests]` and
`if: github.ref == 'refs/heads/main' && github.event_name == 'push'`; the
`Create GitHub Release` step inside it has `if: success()`. -/

/-- Outcome of a CI job (a gate). -/
inductive JobResult where
  | success
  | failure
deriving DecidableEq, Repr

/-- An event that can trigger the workflow: a push to a branch, or a pull
request (with its number) targeting a branch. -/
inductive Trigger where
  | push (branch : String)
  | pullRequest (targetBranch : String) (number : Nat)
deriving DecidableEq, Repr

/-- `github.event_name` for a trigger. -/
def githubEventName : Trigger → String
  | Trigger.push _ => "push"
  | Trigger.pullRequest _ _ => "pull_request"

/-- `github.ref` for a trigger: `refs/heads/<branch>` for a push,
`refs/pull/<n>/merge` for a pull request. -/
def githubRef : Trigger → String
  | Trigger.push b => "refs/heads/" ++ b
  | Trigger.pullRequest _ n => "refs/pull/" ++ toString n ++ "/merge"

/-- The `deploy` job's `if:` condition:
`github.ref == 'refs/heads/main' && github.event_name == 'push'`. -/
def deployCondition (t : Trigger) : Prop :=
  githubRef t = "refs/heads/main" ∧ githubEventName t = "push"

instance (t : Trigger) : Decidable (deployCondition t) := by
  unfold deployCondition; infer_instance

/-- The `deploy` job runs iff all jobs in `needs` succeeded (the default
`success()` status check applied to `needs: [backend-tests,
frontend-tests]`) and its `if:` condition holds. -/
def deployJobRuns (backendRes frontendRes : JobResult) (t : Trigger) : Prop :=
  backendRes = JobResult.success ∧ frontendRes = JobResult.success ∧ deployCondition t

/-- A GitHub release is created iff the `Create GitHub Release` step runs.
The step has `if: success()`, and the steps before it (checkout, artifact
download, `echo`-built report) succeed whenever the gates succeeded and
uploaded their artifacts, so the step runs exactly when the `deploy` job
does. -/
def releaseCreated (backendRes frontendRes : JobResult) (t : Trigger) : Prop :=
  deployJobRuns backendRes frontendRes t

/-! ## Backend coverage gate

`ci.yml` runs
`pytest --cov=src --cov-report=xml --cov-report=html --cov-fail-under=90 --cov-branch`
(and `pytest.ini` `addopts` carries the same `--cov-fail-under=90
--cov-branch`).  `--cov-fail-under=MIN` fails the run when the total
(statement plus branch) coverage is less than MIN. -/

/-- The coverage-related pytest arguments of the backend `Run tests with
coverage` step in `ci.yml`. -/
def ciPytestArgs : List String :=
  ["--cov=src", "--cov-report=xml", "--cov-report=html",
   "--cov-fail-under=90", "--cov-branch"]

/-- Numeric value of a decimal digit character. -/
def digitVal (c : Char) : Option Nat :=
  if c.isDigit then some (c.toNat - 48) else none

/-- Parse a non-empty run of decimal digits. -/
def parseNatDigits : List Char → Option Nat
  | [] => none
  | cs => cs.foldl (fun acc c =>
      match acc, digitVal c with
      | some n, some d => some (n * 10 + d)
      | _, _ => none) (some 0)

/-- Extract the `--cov-fail-under=` threshold from a pytest argument list
(the 17 characters dropped are the flag text up to and including `=`). -/
def covFailUnderOf (args : List String) : Option Nat :=
  (args.filterMap fun a =>
    if "--cov-fail-under=".data.isPrefixOf a.data then
      parseNatDigits (a.data.drop 17)
    else none).head?

/-- The backend test+coverage state fails the job iff the aggregate
coverage total is strictly below the configured `--cov-fail-under`
threshold (and never fails on coverage when no threshold is set). -/
def backendTestStateFails (args : List String) (total : ℚ) : Prop :=
  match covFailUnderOf args with
  | some m => total < (m : ℚ)
  | none => False

/-! ## Frontend coverage gate

`package.json` configures `jest.coverageThreshold.global` at 80 for each
metric; the CI `Run tests with coverage` step passes
`--coverageThreshold` with all four metrics at 90 on the command line,
and a Jest CLI option replaces the configuration-file value. -/

/-- Per-metric coverage figures (thresholds or measured values). -/
structure CoverageFigures where
  branches : ℚ
  functions : ℚ
  lines : ℚ
  statements : ℚ
deriving DecidableEq, Repr

/-- The manifest default thresholds from `package.json`
(`jest.coverageThreshold.global`). -/
def manifestCoverageThreshold : CoverageFigures :=
  { branches := 80, functions := 80, lines := 80, statements := 80 }

/-- The job-level override passed on the CI command line
(`--coverageThreshold` with every metric at 90). -/
def ciCoverageThresholdOverride : CoverageFigures :=
  { branches := 90, functions := 90, lines := 90, statements := 90 }

/-- Jest resolves a CLI `--coverageThreshold` by replacing the
configuration-file value; with no CLI value the manifest applies. -/
def effectiveThreshold (cli : Option CoverageFigures) (manifest : CoverageFigures) :
    CoverageFigures :=
  cli.getD manifest

/-- The thresholds in effect for the frontend gate's CI run. -/
def frontendCIThreshold : CoverageFigures :=
  effectiveThreshold (some ciCoverageThresholdOverride) manifestCoverageThreshold

/-- Metric-wise maximum of two threshold sets (the stricter of the two). -/
def figuresMax (a b : CoverageFigures) : CoverageFigures :=
  { branches := max a.branches b.branches
    functions := max a.functions b.functions
    lines := max a.lines b.lines
    statements := max a.statements b.statements }

/-- Jest fails the test run iff any metric is below its threshold. -/
def frontendGateFails (t m : CoverageFigures) : Prop :=
  m.branches < t.branches ∨ m.functions < t.functions ∨
    m.lines < t.lines ∨ m.statements < t.statements

/-! ## Datastore passwords in provisioning and CI configuration

`docker-compose.yml` supplies `POSTGRES_PASSWORD` and
`MONGO_INITDB_ROOT_PASSWORD` from the environment variables
`POSTGRES_PASSWORD` and `MONGO_PASSWORD`; the CI workflow's `postgres`
service sets `POSTGRES_PASSWORD: postgres`, a literal. -/

/-- A value in a service definition: an environment-variable reference or
a hard-coded literal. -/
inductive ConfigValue where
  | envRef (varName : String)
  | literal (value : String)
deriving DecidableEq, Repr

/-- Whether a config value is an environment-variable reference. -/
def isEnvRef : ConfigValue → Bool
  | ConfigValue.envRef _ => true
  | ConfigValue.literal _ => false

/-- `docker-compose.yml` postgres service: `POSTGRES_PASSWORD` from the
environment. -/
def composePostgresPassword : ConfigValue := ConfigValue.envRef "POSTGRES_PASSWORD"

/-- `docker-compose.yml` mongodb service: `MONGO_INITDB_ROOT_PASSWORD`
from the `MONGO_PASSWORD` environment variable. -/
def composeMongoRootPassword : ConfigValue := ConfigValue.envRef "MONGO_PASSWORD"

/-- `ci.yml` backend job, `services.postgres.env`:
`POSTGRES_PASSWORD: postgres` — a literal value. -/
def ciPostgresServicePassword : ConfigValue := ConfigValue.literal "postgres"

/-- Every datastore-password setting in the provisioning and CI
configuration, labelled by where it is set. -/
def datastorePasswordSettings : List (String × ConfigValue) :=
  [("docker-compose postgres POSTGRES_PASSWORD", composePostgresPassword),
   ("docker-compose mongodb MONGO_INITDB_ROOT_PASSWORD", composeMongoRootPassword),
   ("ci services.postgres.env POSTGRES_PASSWORD", ciPostgresServicePassword)]

/-- The password settings of the Compose provisioning file alone. -/
def composeDatastorePasswords : List ConfigValue :=
  [composePostgresPassword, composeMongoRootPassword]

/-! ## Release/publish step of the `deploy` job

`Download all workflow run artifacts` uses `actions/download-artifact@v3`
with no `name:` input, which downloads every artifact of the run.
`Generate combined coverage report` writes five `echo` lines into
`coverage-report.md`.  `Create GitHub Release` uses
`softprops/action-gh-release@v1` with `files`, `name: Release <sha>`,
`body_path`, `draft: false`, `prerelease: false` — and no `tag_name`
input; the action defaults `tag_name` to the ref that triggered the
workflow. -/

/-- The inputs of the `Create GitHub Release` step, as a function of the
commit SHA interpolated into `name: Release github.sha`. -/
structure GhReleaseStep where
  files : List String
  releaseName : String
  tagNameInput : Option String
  bodyPath : String
  draft : Bool
  prerelease : Bool
deriving DecidableEq, Repr

/-- The `Create GitHub Release` step of `ci.yml` at commit `sha`. -/
def createReleaseStep (sha : String) : GhReleaseStep :=
  { files := ["coverage-report.md", "backend-coverage-report/coverage-badge.svg"]
    releaseName := "Release " ++ sha
    tagNameInput := none
    bodyPath := "coverage-report.md"
    draft := false
    prerelease := false }

/-- The tag the release is created under: the `tag_name` input when set,
otherwise the triggering ref's name (the action's default). -/
def effectiveReleaseTag (step : GhReleaseStep) (refName : String) : String :=
  step.tagNameInput.getD refName

/-- The `name:` input of the artifact download step (absent: download all
artifacts of the run). -/
def artifactDownloadName : Option String := none

/-- The artifacts uploaded by the two gates (`Archive code coverage
results`, `Archive frontend coverage results`). -/
def uploadedArtifacts : List String :=
  ["backend-coverage-report", "frontend-coverage-report"]

/-- The artifacts the deploy job downloads: all of them when no `name:`
is given, else just the named one. -/
def downloadedArtifacts : List String :=
  match artifactDownloadName with
  | none => uploadedArtifacts
  | some n => uploadedArtifacts.filter (fun a => a = n)

/-- The lines `Generate combined coverage report` echoes into
`coverage-report.md`, in order. -/
def coverageReportLines : List String :=
  ["## Coverage Report",
   "### Backend Coverage",
   "![Backend Coverage](./backend-coverage-report/coverage-badge.svg)",
   "### Frontend Coverage",
   "Coverage information available in artifacts"]

/-! ## Datastore health checks

`docker-compose.yml` gives both the postgres and the mongodb service a
health check with `interval: 10s`, `timeout: 5s`, `retries: 5`.  The CI
workflow's `postgres` service container passes the same three values via
the `--health-interval`, `--health-timeout` and `--health-retries`
options; its `mongodb` service container sets no health options at all. -/

/-- Health-check parameters of a container. -/
structure HealthCheckCfg where
  intervalSeconds : Nat
  timeoutSeconds : Nat
  retries : Nat
deriving DecidableEq, Repr

/-- A container definition: a label and an optional health check. -/
structure ServiceCfg where
  serviceName : String
  healthcheck : Option HealthCheckCfg
deriving DecidableEq, Repr

/-- `docker-compose.yml` postgres service (`pg_isready` probe). -/
def composePostgresService : ServiceCfg :=
  { serviceName := "compose-postgres", healthcheck := some ⟨10, 5, 5⟩ }

/-- `docker-compose.yml` mongodb service (`mongosh` ping probe). -/
def composeMongodbService : ServiceCfg :=
  { serviceName := "compose-mongodb", healthcheck := some ⟨10, 5, 5⟩ }

/-- `ci.yml` backend job `services.postgres` (`pg_isready` health-cmd with
interval 10s, timeout 5s, retries 5). -/
def ciPostgresService : ServiceCfg :=
  { serviceName := "ci-postgres", healthcheck := some ⟨10, 5, 5⟩ }

/-- `ci.yml` backend job `services.mongodb`: image and port only, no
health options. -/
def ciMongodbService : ServiceCfg :=
  { serviceName := "ci-mongodb", healthcheck := none }

/-- Every datastore container defined in the provisioning and CI
configuration. -/
def datastoreContainers : List ServiceCfg :=
  [composePostgresService, composeMongodbService, ciPostgresService, ciMongodbService]

/-- A datastore is considered unavailable when its health check's retry
budget is exhausted: the first `retries` probes all failed. -/
def consideredUnavailable (hc : HealthCheckCfg) (probeOk : List Bool) : Prop :=
  hc.retries ≤ probeOk.length ∧ ∀ b ∈ probeOk.take hc.retries, b = false

instance (hc : HealthCheckCfg) (probeOk : List Bool) :
    Decidable (consideredUnavailable hc probeOk) := by
  unfold consideredUnavailable; infer_instance

/-- A job depending on a service container fails (rather than connecting)
when the container's health check declares it unavailable; a container
with no health check never blocks its dependents this way. -/
def dependentJobFails (svc : ServiceCfg) (probeOk : List Bool) : Prop :=
  match svc.healthcheck with
  | some hc => consideredUnavailable hc probeOk
  | none => False

/-! ## Backend gate as an ordered fail-fast state sequence

The backend job's steps run in listed order; no step carries
`continue-on-error` or an `if:` override, so a failing step stops the job
and no later step (state) executes, and GitHub Actions never retries a
step.  The badge command (`coverage-badge`) follows `pytest` inside the
`Run tests with coverage` step under the default fail-fast shell, so it
is a state of its own, ordered after test+coverage. -/

/-- The states of the backend gate named by the spec. -/
inductive BackendState where
  | install
  | securityScan
  | lintTypecheckFormat
  | testCoverage
  | badgeGenerate
  | publishArtifacts
deriving DecidableEq, Repr, Fintype

/-- The step (or in-step command) of `ci.yml` realising each state. -/
def stateStepCommand : BackendState → String
  | BackendState.install => "Install dependencies"
  | BackendState.securityScan => "Check dependency vulnerabilities"
  | BackendState.lintTypecheckFormat => "Run linting and type checking"
  | BackendState.testCoverage =>
      "pytest --cov=src --cov-report=xml --cov-report=html --cov-fail-under=90 --cov-branch"
  | BackendState.badgeGenerate => "coverage-badge -o coverage-badge.svg -f"
  | BackendState.publishArtifacts => "Archive code coverage results"

/-- The backend gate's states in the order `ci.yml` lists them. -/
def backendStates : List BackendState :=
  [BackendState.install, BackendState.securityScan, BackendState.lintTypecheckFormat,
   BackendState.testCoverage, BackendState.badgeGenerate, BackendState.publishArtifacts]

/-- Position of a state in the source order. -/
def stateIdx : BackendState → Nat
  | BackendState.install => 0
  | BackendState.securityScan => 1
  | BackendState.lintTypecheckFormat => 2
  | BackendState.testCoverage => 3
  | BackendState.badgeGenerate => 4
  | BackendState.publishArtifacts => 5

/-- Fail-fast execution of a state list: each state runs once; the first
failing state is the last to execute. -/
def runStates (outcome : BackendState → Bool) : List BackendState → List BackendState
  | [] => []
  | s :: rest => if outcome s then s :: runStates outcome rest else [s]

/-- The states a backend-gate run executes, given each state's outcome. -/
def backendRun (outcome : BackendState → Bool) : List BackendState :=
  runStates outcome backendStates

/-! ## Placeholder React component (`App`)

The component returns a fixed tree: a `main` element with
`data-testid="app-main"` and `className="min-h-screen bg-gray-100"`,
containing a `div` (`app-container`, `container mx-auto px-4 py-8`)
containing an `h1` (`text-3xl font-bold`) with the text
`Test Generation Platform`.  It takes no props and reads no state. -/

/-- A rendered DOM node: an element with tag, optional `className`,
optional `data-testid` and children, or a text node. -/
inductive DomNode where
  | elem (tag : String) (className : Option String) (testId : Option String)
      (children : List DomNode)
  | text (s : String)

/-- The tree the `App` component renders. -/
def appRender : DomNode :=
  DomNode.elem "main" (some "min-h-screen bg-gray-100") (some "app-main")
    [DomNode.elem "div" (some "container mx-auto px-4 py-8") (some "app-container")
      [DomNode.elem "h1" (some "text-3xl font-bold") none
        [DomNode.text "Test Generation Platform"]]]

/-- The `App` component: no props (modelled as `Unit`), no external state,
so every render yields the same tree. -/
def App (_ : Unit) : DomNode := appRender

mutual

/-- Number of elements with the given tag in a tree. -/
def countTag (t : String) : DomNode → Nat
  | DomNode.text _ => 0
  | DomNode.elem tag _ _ children =>
      (if tag = t then 1 else 0) + countTagL t children

/-- Number of elements with the given tag in a forest. -/
def countTagL (t : String) : List DomNode → Nat
  | [] => 0
  | c :: cs => countTag t c + countTagL t cs

/-- Concatenated text content of a tree. -/
def textContent : DomNode → String
  | DomNode.text s => s
  | DomNode.elem _ _ _ children => textContentL children

/-- Concatenated text content of a forest. -/
def textContentL : List DomNode → String
  | [] => ""
  | c :: cs => textContent c ++ textContentL cs

/-- The text contents of every element with the given tag, in document
order. -/
def tagTexts (t : String) : DomNode → List String
  | DomNode.text _ => []
  | DomNode.elem tag _ _ children =>
      (if tag = t then [textContentL children] else []) ++ tagTextsL t children

/-- The text contents of every element with the given tag in a forest. -/
def tagTextsL (t : String) : List DomNode → List String
  | [] => []
  | c :: cs => tagTexts t c ++ tagTextsL t cs

end

/-- The `className` of the root element of a tree. -/
def rootClassName : DomNode → Option String
  | DomNode.elem _ c _ _ => c
  | DomNode.text _ => none

/-- Split a `className` string into its space-separated classes. -/
def classList (s : String) : List String :=
  (s.data.splitOn ' ').map fun cs => String.mk cs

/-- The space-separated class list of the root element. -/
def rootClassList (d : DomNode) : List String :=
  classList ((rootClassName d).getD "")

/-! ## Lemmas about the unique index on `pattern_name` -/

/-- A collection counts zero documents keyed `v` iff no stored document
has index key `v`. -/
theorem countWithName_eq_zero {coll : List PatternDoc} {v : Option String} :
    countWithName coll v = 0 ↔ ∀ e ∈ coll, indexKey e ≠ v := by
  simp [countWithName, List.length_eq_zero, List.filter_eq_nil_iff]

/-- Counting documents keyed `v` distributes over append. -/
theorem countWithName_append (c₁ c₂ : List PatternDoc) (v : Option String) :
    countWithName (c₁ ++ c₂) v = countWithName c₁ v + countWithName c₂ v := by
  simp [countWithName, List.filter_append]

/-- The duplicate-key scan reports no hit when no stored document shares
the new document's index key. -/
theorem any_key_eq_false {coll : List PatternDoc} {d : PatternDoc}
    (h : ∀ e ∈ coll, indexKey e ≠ indexKey d) :
    (coll.any fun e => indexKey e = indexKey d) = false := by
  simp only [List.any_eq_false, decide_eq_true_eq]
  exact h

/-- An insert with a fresh index key appends the document. -/
theorem insertPattern_fresh {coll : List PatternDoc} {d : PatternDoc}
    (h : ∀ e ∈ coll, indexKey e ≠ indexKey d) :
    insertPattern coll d = InsertResult.inserted (coll ++ [d]) := by
  simp [insertPattern, any_key_eq_false h]

/-- An insert whose index key is already stored is rejected. -/
theorem insertPattern_dup {coll : List PatternDoc} {d : PatternDoc} (e : PatternDoc)
    (he : e ∈ coll) (hk : indexKey e = indexKey d) :
    insertPattern coll d = InsertResult.duplicateKeyError := by
  have hany : (coll.any fun x => indexKey x = indexKey d) = true := by
    simp only [List.any_eq_true, decide_eq_true_eq]
    exact ⟨e, he, hk⟩
  simp [insertPattern, hany]

/-- One order of the duplicate-`pattern_name` experiment: the first insert
succeeds, the second fails with a duplicate-key error, and the collection
ends with exactly one document carrying the name. -/
theorem insert_pair_order (coll : List PatternDoc) (da db : PatternDoc) (v : String)
    (ha : da.pattern_name = some v) (hb : db.pattern_name = some v)
    (hfree : countWithName coll (some v) = 0) :
    insertSucceeds coll da = true ∧
    insertPattern (collAfter coll da) db = InsertResult.duplicateKeyError ∧
    countWithName (collAfter (collAfter coll da) db) (some v) = 1 := by
  have hkeys : ∀ e ∈ coll, indexKey e ≠ some v := countWithName_eq_zero.mp hfree
  have hka : indexKey da = some v := ha
  have hkb : indexKey db = some v := hb
  have hfresh : ∀ e ∈ coll, indexKey e ≠ indexKey da := by
    intro e he
    rw [hka]
    exact hkeys e he
  have hins : insertPattern coll da = InsertResult.inserted (coll ++ [da]) :=
    insertPattern_fresh hfresh
  have hafter : collAfter coll da = coll ++ [da] := by
    simp [collAfter, hins]
  have hdup : insertPattern (coll ++ [da]) db = InsertResult.duplicateKeyError :=
    insertPattern_dup da (by simp) (by rw [hka, hkb])
  refine ⟨by simp [insertSucceeds, hins], by rw [hafter]; exact hdup, ?_⟩
  have hafter2 : collAfter (coll ++ [da]) db = coll ++ [da] := by
    simp [collAfter, hdup]
  rw [hafter, hafter2, countWithName_append, hfree]
  simp [countWithName, List.filter, hka]

/-- The per-insert step preserves the at-most-one bound for any index
key. -/
theorem collAfter_count_le (coll : List PatternDoc) (d : PatternDoc) (k : Option String)
    (h : countWithName coll k ≤ 1) : countWithName (collAfter coll d) k ≤ 1 := by
  by_cases hany : (coll.any fun e => indexKey e = indexKey d) = true
  · have hrej : insertPattern coll d = InsertResult.duplicateKeyError := by
      simp [insertPattern, hany]
    simpa [collAfter, hrej] using h
  · have hkeys : ∀ e ∈ coll, indexKey e ≠ indexKey d := by
      intro e he hk
      exact hany (by simp only [List.any_eq_true, decide_eq_true_eq]; exact ⟨e, he, hk⟩)
    have hfresh := insertPattern_fresh hkeys
    rw [show collAfter coll d = coll ++ [d] by simp [collAfter, hfresh]]
    rw [countWithName_append]
    by_cases hk : indexKey d = k
    · have hzero : countWithName coll k = 0 := by
        rw [countWithName_eq_zero]
        intro e he hek
        exact hkeys e he (hek.trans hk.symm)
      rw [hzero]
      simp [countWithName, List.filter, hk]
    · have hone : countWithName [d] k = 0 := by
        rw [countWithName_eq_zero]
        intro e he
        simp at he
        subst he
        exact hk
      rw [hone]
      simpa using h

/-- Starting from any collection within the bound, a run of inserts keeps
at most one document per index key. -/
theorem applyInserts_count_le (ds : List PatternDoc) (coll : List PatternDoc)
    (k : Option String) (h : countWithName coll k ≤ 1) :
    countWithName (applyInserts coll ds) k ≤ 1 := by
  induction ds generalizing coll with
  | nil => simpa [applyInserts] using h
  | cons d ds ih => exact ih _ (collAfter_count_le _ _ _ h)

/-- C1: against the unique index created by `01-init.js`, inserting two
documents with the same `pattern_name` into a collection not yet holding
that name yields, in either order, one success and one duplicate-key
failure, and leaves exactly one document with that name. -/
theorem mongo_unique_pattern_name_pair (coll : List PatternDoc) (d1 d2 : PatternDoc)
    (v : String) (h1 : d1.pattern_name = some v) (h2 : d2.pattern_name = some v)
    (hfree : countWithName coll (some v) = 0) :
    (insertSucceeds coll d1 = true ∧
      insertPattern (collAfter coll d1) d2 = InsertResult.duplicateKeyError ∧
      countWithName (collAfter (collAfter coll d1) d2) (some v) = 1) ∧
    (insertSucceeds coll d2 = true ∧
      insertPattern (collAfter coll d2) d1 = InsertResult.duplicateKeyError ∧
      countWithName (collAfter (collAfter coll d2) d1) (some v) = 1) :=
  ⟨insert_pair_order coll d1 d2 v h1 h2 hfree,
   insert_pair_order coll d2 d1 v h2 h1 hfree⟩

/-- C1 witness: the two-insert experiment run concretely on an empty
collection with `pattern_name` value `p`. -/
theorem mongo_unique_pattern_name_pair_witness :
    (insertSucceeds [] ⟨some "p", "a"⟩ = true ∧
      insertPattern (collAfter [] ⟨some "p", "a"⟩) ⟨some "p", "b"⟩ =
        InsertResult.duplicateKeyError ∧
      countWithName (collAfter (collAfter [] ⟨some "p", "a"⟩) ⟨some "p", "b"⟩)
        (some "p") = 1) ∧
    (insertSucceeds [] ⟨some "p", "b"⟩ = true ∧
      insertPattern (collAfter [] ⟨some "p", "b"⟩) ⟨some "p", "a"⟩ =
        InsertResult.duplicateKeyError ∧
      countWithName (collAfter (collAfter [] ⟨some "p", "b"⟩) ⟨some "p", "a"⟩)
        (some "p") = 1) :=
  mongo_unique_pattern_name_pair [] ⟨some "p", "a"⟩ ⟨some "p", "b"⟩ "p" rfl rfl rfl

/-- C10: the index, having no sparse/partial option, keys absent
`pattern_name` fields as null: a second document lacking the field is
rejected as a duplicate, and any collection built by inserts holds at most
one document without the field. -/
theorem mongo_null_key_at_most_one :
    (∀ (coll : List PatternDoc) (d2 : PatternDoc), d2.pattern_name = none →
      (∃ d1 ∈ coll, d1.pattern_name = none) →
      insertPattern coll d2 = InsertResult.duplicateKeyError) ∧
    (∀ ds : List PatternDoc, countWithName (applyInserts [] ds) none ≤ 1) := by
  constructor
  · rintro coll d2 h2 ⟨d1, hmem, h1⟩
    exact insertPattern_dup d1 hmem (by rw [indexKey, indexKey, h1, h2])
  · intro ds
    exact applyInserts_count_le ds [] none (by simp [countWithName])

/-- C10 witness: a concrete second field-less insert is rejected, and a
concrete insert run keeps at most one field-less document. -/
theorem mongo_null_key_at_most_one_witness :
    insertPattern [⟨none, "a"⟩] ⟨none, "b"⟩ = InsertResult.duplicateKeyError ∧
    countWithName (applyInserts [] [⟨none, "a"⟩, ⟨none, "b"⟩, ⟨some "x", "c"⟩])
      none ≤ 1 :=
  ⟨mongo_null_key_at_most_one.1 [⟨none, "a"⟩] ⟨none, "b"⟩ rfl
      ⟨⟨none, "a"⟩, by simp, rfl⟩,
   mongo_null_key_at_most_one.2 [⟨none, "a"⟩, ⟨none, "b"⟩, ⟨some "x", "c"⟩]⟩

/-! ## The deploy job's gating condition -/

/-- A push ref equals the main ref exactly for the `main` branch. -/
theorem refsHeads_eq_main_iff (b : String) :
    ("refs/heads/" ++ b = "refs/heads/main") ↔ b = "main" := by
  constructor
  · intro h
    have hd : ("refs/heads/" ++ b).data = ("refs/heads/" ++ "main").data := by
      rw [h]; rfl
    simp only [String.data_append] at hd
    exact String.ext (List.append_cancel_left hd)
  · intro h
    rw [h]; rfl

/-- The deploy job's `if:` condition holds exactly for a push to `main`. -/
theorem deployCondition_iff (t : Trigger) :
    deployCondition t ↔ t = Trigger.push "main" := by
  cases t with
  | push b =>
      simp [deployCondition, githubRef, githubEventName, refsHeads_eq_main_iff]
  | pullRequest tb n =>
      simp [deployCondition, githubRef, githubEventName]

/-- C2: a release is created iff both gates succeeded and the trigger is
a push to `main`; a red frontend gate blocks the release whatever the
backend did, and no pull-request run releases. -/
theorem release_iff_gates_and_push_main (br fr : JobResult) (t : Trigger) :
    (releaseCreated br fr t ↔
      br = JobResult.success ∧ fr = JobResult.success ∧ t = Trigger.push "main") ∧
    (fr = JobResult.failure → ¬ releaseCreated br fr t) ∧
    (githubEventName t = "pull_request" → ¬ releaseCreated br fr t) := by
  refine ⟨?_, ?_, ?_⟩
  · unfold releaseCreated deployJobRuns
    rw [deployCondition_iff]
  · rintro hf ⟨hb, hfr, hc⟩
    rw [hf] at hfr
    cases hfr
  · rintro hev ⟨hb, hfr, href, hpush⟩
    rw [hev] at hpush
    exact absurd hpush (by decide)

/-- C2 witness: concrete runs — green gates on a push to `main` release;
a red frontend gate or a pull-request trigger does not. -/
theorem release_iff_gates_and_push_main_witness :
    releaseCreated JobResult.success JobResult.success (Trigger.push "main") ∧
    ¬ releaseCreated JobResult.success JobResult.failure (Trigger.push "main") ∧
    ¬ releaseCreated JobResult.success JobResult.success
        (Trigger.pullRequest "main" 7) :=
  ⟨(release_iff_gates_and_push_main JobResult.success JobResult.success
      (Trigger.push "main")).1.mpr ⟨rfl, rfl, rfl⟩,
   (release_iff_gates_and_push_main JobResult.success JobResult.failure
      (Trigger.push "main")).2.1 rfl,
   (release_iff_gates_and_push_main JobResult.success JobResult.success
      (Trigger.pullRequest "main" 7)).2.2 rfl⟩

/-- C3: the CI pytest invocation carries `--cov-fail-under=90`, the
test+coverage state fails exactly when aggregate coverage is strictly
below 90, a total of 89.9 fails, and the boundary value 90.0 passes. -/
theorem backend_coverage_threshold :
    covFailUnderOf ciPytestArgs = some 90 ∧
    (∀ total : ℚ, backendTestStateFails ciPytestArgs total ↔ total < 90) ∧
    backendTestStateFails ciPytestArgs (899 / 10) ∧
    ¬ backendTestStateFails ciPytestArgs 90 := by
  have hthr : covFailUnderOf ciPytestArgs = some 90 := by decide
  have hiff : ∀ total : ℚ, backendTestStateFails ciPytestArgs total ↔ total < 90 := by
    intro total
    simp only [backendTestStateFails, hthr]
    norm_num
  refine ⟨hthr, hiff, ?_, ?_⟩
  · rw [hiff]
    norm_num
  · rw [hiff]
    norm_num

/-- C4: the CI override makes every frontend metric threshold 90 — the
stricter of manifest 80 and override 90 — and the gate fails exactly when
some metric is below 90, passing exactly when all four reach 90. -/
theorem frontend_effective_threshold :
    frontendCIThreshold = ciCoverageThresholdOverride ∧
    frontendCIThreshold =
      figuresMax manifestCoverageThreshold ciCoverageThresholdOverride ∧
    (∀ m : CoverageFigures,
      frontendGateFails frontendCIThreshold m ↔
        (m.branches < 90 ∨ m.functions < 90 ∨ m.lines < 90 ∨ m.statements < 90)) ∧
    (∀ m : CoverageFigures,
      ¬ frontendGateFails frontendCIThreshold m ↔
        (90 ≤ m.branches ∧ 90 ≤ m.functions ∧ 90 ≤ m.lines ∧ 90 ≤ m.statements)) := by
  have h8090 : max (80 : ℚ) 90 = 90 := max_eq_right (by norm_num)
  refine ⟨rfl, ?_, fun m => Iff.rfl, fun m => ?_⟩
  · simp [frontendCIThreshold, effectiveThreshold, figuresMax,
      manifestCoverageThreshold, ciCoverageThresholdOverride, h8090]
  · simp [frontendGateFails, not_or, not_lt, frontendCIThreshold,
      effectiveThreshold, ciCoverageThresholdOverride]

/-- C5 counterexample: not every datastore password in the provisioning
and CI configuration is environment-supplied — the CI workflow's postgres
service hard-codes the literal `postgres`. -/
theorem ci_postgres_password_literal :
    ¬ (∀ p ∈ datastorePasswordSettings, isEnvRef p.2 = true) ∧
    ("ci services.postgres.env POSTGRES_PASSWORD", ciPostgresServicePassword) ∈
      datastorePasswordSettings ∧
    ciPostgresServicePassword = ConfigValue.literal "postgres" ∧
    isEnvRef ciPostgresServicePassword = false := by
  decide

/-- C5 amended: in the Compose provisioning file both datastore passwords
are environment-variable references (`POSTGRES_PASSWORD`,
`MONGO_PASSWORD`); the CI workflow's postgres service password is the
literal `postgres`. -/
theorem compose_passwords_env_supplied :
    composePostgresPassword = ConfigValue.envRef "POSTGRES_PASSWORD" ∧
    composeMongoRootPassword = ConfigValue.envRef "MONGO_PASSWORD" ∧
    composeDatastorePasswords.all isEnvRef = true ∧
    isEnvRef ciPostgresServicePassword = false := by
  decide

/-- C6 counterexample: the release's tag is not the commit SHA — with no
`tag_name` input it defaults to the triggering ref's name, here `main`
for a push whose SHA is `0a1b2c3d`. -/
theorem release_tag_not_sha :
    effectiveReleaseTag (createReleaseStep "0a1b2c3d") "main" = "main" ∧
    "main" ≠ "0a1b2c3d" := by
  decide

/-- C6 amended: the deploy job downloads both gates' artifacts, the
combined Markdown report covers backend and frontend coverage and
references the backend badge, and the release carries the report and the
badge under the name `Release <sha>` — while its tag defaults to the
triggering ref's name, not the SHA. -/
theorem release_step_contents (sha : String) :
    downloadedArtifacts = uploadedArtifacts ∧
    "### Backend Coverage" ∈ coverageReportLines ∧
    "### Frontend Coverage" ∈ coverageReportLines ∧
    "![Backend Coverage](./backend-coverage-report/coverage-badge.svg)" ∈
      coverageReportLines ∧
    (createReleaseStep sha).releaseName = "Release " ++ sha ∧
    (createReleaseStep sha).files =
      ["coverage-report.md", "backend-coverage-report/coverage-badge.svg"] ∧
    (createReleaseStep sha).bodyPath = "coverage-report.md" ∧
    (createReleaseStep sha).tagNameInput = none ∧
    (∀ refName : String,
      effectiveReleaseTag (createReleaseStep sha) refName = refName) :=
  ⟨rfl, by decide, by decide, by decide, rfl, rfl, rfl, rfl, fun _ => rfl⟩

/-- C7 counterexample: not every datastore container carries the
10s/5s/5-retries health check — the CI workflow's mongodb service defines
none at all. -/
theorem ci_mongodb_no_healthcheck :
    ¬ (∀ svc ∈ datastoreContainers, svc.healthcheck = some ⟨10, 5, 5⟩) ∧
    ciMongodbService ∈ datastoreContainers ∧
    ciMongodbService.healthcheck = none := by
  decide

/-- C7 amended: the Compose postgres and mongodb containers and the CI
postgres container poll at a 10-second interval with a 5-second timeout
and 5 retries (the CI mongodb container has no health check), and
whenever a configured retry budget is exhausted the datastore counts as
unavailable and its dependent job fails. -/
theorem healthcheck_parameters :
    composePostgresService.healthcheck = some ⟨10, 5, 5⟩ ∧
    composeMongodbService.healthcheck = some ⟨10, 5, 5⟩ ∧
    ciPostgresService.healthcheck = some ⟨10, 5, 5⟩ ∧
    ciMongodbService.healthcheck = none ∧
    (∀ svc ∈ datastoreContainers,
      svc.healthcheck = none ∨ svc.healthcheck = some ⟨10, 5, 5⟩) ∧
    (∀ svc ∈ datastoreContainers, ∀ hc, svc.healthcheck = some hc →
      ∀ probes : List Bool, consideredUnavailable hc probes →
        dependentJobFails svc probes) := by
  refine ⟨rfl, rfl, rfl, rfl, by decide, ?_⟩
  intro svc _ hc hsvc probes hun
  simp only [dependentJobFails, hsvc]
  exact hun

/-- C7 witness: the Compose postgres container's budget of five failed
probes makes it unavailable and fails its dependent job. -/
theorem healthcheck_parameters_witness :
    dependentJobFails composePostgresService
      [false, false, false, false, false] :=
  healthcheck_parameters.2.2.2.2.2 composePostgresService (by decide)
    ⟨10, 5, 5⟩ rfl [false, false, false, false, false] (by decide)

/-- C8: the backend gate's states run in exactly the listed order; a
failing state is the last to execute (nothing later runs), and no state
runs twice (no automatic retry). -/
theorem backend_states_fail_fast :
    backendStates = [BackendState.install, BackendState.securityScan,
      BackendState.lintTypecheckFormat, BackendState.testCoverage,
      BackendState.badgeGenerate, BackendState.publishArtifacts] ∧
    (∀ outcome : BackendState → Bool, ∀ s t : BackendState,
      outcome s = false → stateIdx s < stateIdx t → t ∉ backendRun outcome) ∧
    (∀ outcome : BackendState → Bool, ∀ s : BackendState,
      (backendRun outcome).count s ≤ 1) ∧
    (∀ outcome : BackendState → Bool, ∀ s : BackendState,
      outcome s = false → s ∈ backendRun outcome →
        (backendRun outcome).getLast? = some s) := by
  refine ⟨rfl, ?_, ?_, ?_⟩ <;> decide

/-- C8 witness: with the lint state red, the later test+coverage state
does not execute and the run ends at the lint state; states never
repeat. -/
theorem backend_states_fail_fast_witness :
    BackendState.testCoverage ∉
      backendRun (fun s => decide (s ≠ BackendState.lintTypecheckFormat)) ∧
    (backendRun (fun _ => true)).count BackendState.install ≤ 1 ∧
    (backendRun (fun s => decide (s ≠ BackendState.lintTypecheckFormat))).getLast? =
      some BackendState.lintTypecheckFormat :=
  ⟨backend_states_fail_fast.2.1 _ BackendState.lintTypecheckFormat
      BackendState.testCoverage (by decide) (by decide),
   backend_states_fail_fast.2.2.1 _ BackendState.install,
   backend_states_fail_fast.2.2.2 _ BackendState.lintTypecheckFormat
      (by decide) (by decide)⟩

/-- C9: every render of the propless `App` yields the same tree, which
has exactly one `h1`, its text is exactly `Test Generation Platform`,
and the root element's class string is `min-h-screen bg-gray-100`,
carrying both classes. -/
theorem app_renders_fixed_layout :
    (∀ u : Unit, App u = appRender) ∧
    countTag "h1" (App ()) = 1 ∧
    tagTexts "h1" (App ()) = ["Test Generation Platform"] ∧
    rootClassName (App ()) = some "min-h-screen bg-gray-100" ∧
    rootClassList (App ()) = ["min-h-screen", "bg-gray-100"] := by
  refine ⟨fun _ => rfl, by decide, by decide, rfl, by decide⟩

end TestGen
